import Mathlib

/-
Verification of the Jarvis Discord bot (src/main.py and the earlier revision
in src/unnamed/part_000).  The embedding below follows src/main.py, the
authoritative revision: the conversation store (active_channels,
conversation_history), the base64 image decoder save_image_from_base64, the
remote content generator generate_content / download_image, and the reply
formatting and cleanup section of the ask command.  External collaborators
(the Discord transport, the Gemini API, the requests library, the PIL image
codec, the file system) are modelled as parameters that may fail.
-/

namespace Jarvis

/-- One error value standing for an arbitrary Python exception raised by an
external call. -/
structure PyErr where
  msg : String
deriving DecidableEq

/-- Translation of a Python try/except block: run the body; when it raises,
run the handler on the exception. -/
def pyTry {α : Type} (body : Except PyErr α) (handler : PyErr → Except PyErr α) :
    Except PyErr α :=
  match body with
  | Except.ok a => Except.ok a
  | Except.error e => handler e

/-! ### Base64 (model of the Python stdlib base64 module used by src/main.py) -/

/-- The 64 characters of the standard base64 alphabet, in index order, as used
by the Python stdlib base64 module (an external dependency of src/main.py). -/
def b64Alphabet : List Char :=
  "ABCDEFGHIJKLMNOPQRSTUVWXYZabcdefghijklmnopqrstuvwxyz0123456789+/".toList

/-- Alphabet character for a 6-bit value. -/
def encodeChar (v : Nat) : Char := b64Alphabet.getD v '='

/-- 6-bit value of an alphabet character, none when the character is not in
the alphabet. -/
def decodeChar (c : Char) : Option Nat := b64Alphabet.findIdx? (fun a => a == c)

/-- Model of Python base64.b64encode on a list of bytes: groups of three bytes
become four alphabet characters, a final group of one or two bytes is padded
with = to a four-character group. -/
def b64encode : List Nat → List Char
  | [] => []
  | [a] => [encodeChar (a / 4), encodeChar (a % 4 * 16), '=', '=']
  | [a, b] =>
      [encodeChar (a / 4), encodeChar (a % 4 * 16 + b / 16), encodeChar (b % 16 * 4), '=']
  | a :: b :: c :: rest =>
      encodeChar (a / 4) :: encodeChar (a % 4 * 16 + b / 16) ::
        encodeChar (b % 16 * 4 + c / 64) :: encodeChar (c % 64) :: b64encode rest

/-- Decode one four-character base64 group, honouring trailing = padding. -/
def b64DecodeQuad (c1 c2 c3 c4 : Char) : Option (List Nat) :=
  match decodeChar c1, decodeChar c2 with
  | some v1, some v2 =>
    if c3 = '=' then
      if c4 = '=' then some [v1 * 4 + v2 / 16] else none
    else
      match decodeChar c3 with
      | some v3 =>
        if c4 = '=' then some [v1 * 4 + v2 / 16, v2 % 16 * 16 + v3 / 4]
        else
          match decodeChar c4 with
          | some v4 => some [v1 * 4 + v2 / 16, v2 % 16 * 16 + v3 / 4, v3 % 4 * 64 + v4]
          | none => none
      | none => none
  | _, _ => none

/-- Model of Python base64.b64decode on a correctly padded base64 string:
decode four characters at a time; anything else is a decode error (none). -/
def b64decode : List Char → Option (List Nat)
  | [] => some []
  | c1 :: c2 :: c3 :: c4 :: rest =>
    match b64DecodeQuad c1 c2 c3 c4, b64decode rest with
    | some g, some r => some (g ++ r)
    | _, _ => none
  | _ => none

/-! ### Image decoder (save_image_from_base64, src/main.py lines 246-321) -/

/-- Padding and data-URL normalisation performed by save_image_from_base64 on
a textual payload (src/main.py lines 256-265): right-pad with = until the
length is a multiple of four, then, when a comma is present, keep only what
follows the first comma. -/
def normalizeB64 (s : List Char) : List Char :=
  let r := s.length % 4
  let s1 := if r = 0 then s else s ++ List.replicate (4 - r) '='
  if ',' ∈ s1 then (s1.dropWhile (fun c => c ≠ ',')).drop 1 else s1

/-- Removal of the last k characters of a string, Python s[:len(s)-k]. -/
def pyDropEnd {α : Type} (k : Nat) (l : List α) : List α := l.take (l.length - k)

/-- The two runtime shapes accepted by save_image_from_base64: a base64
string or a raw byte payload (the isinstance branches at lines 252 and 273). -/
inductive B64Input where
  | str (s : List Char)
  | bytes (b : List Nat)

/-- Outcomes of the external calls made while saving: the PIL open/save pair
(lines 292-304), which on success writes a re-encoding of the decoded bytes
chosen by the codec (PIL is an out-of-scope collaborator, so the written
bytes are an arbitrary function of the input, not assumed equal to it), and
the raw fallback file write (lines 310-314), which stores the decoded bytes
verbatim when it succeeds. -/
structure SaveEnv where
  pil : List Nat → Except PyErr (List Nat)
  rawWrite : Except PyErr Unit

/-- Second half of save_image_from_base64, from the 100-byte size gate (line
282) on: try the PIL open/save, whose successful write stores the bytes the
codec produced from image_data; on a PIL exception fall back to the direct
file write, which stores image_data verbatim; when that also raises, return
None. -/
def saveDecoded (env : SaveEnv) (filename : String) (image_data : List Nat) :
    Except PyErr (Option (String × List Nat)) :=
  if image_data.length < 100 then Except.ok none
  else
    match env.pil image_data with
    | Except.ok written => Except.ok (some (filename, written))
    | Except.error _ =>
      match env.rawWrite with
      | Except.ok _ => Except.ok (some (filename, image_data))
      | Except.error _ => Except.ok none

/-- Model of save_image_from_base64 (src/main.py lines 246-321).  A returned
value of ok none is the Python return None; ok (some (f, bytes)) is a saved
file f holding bytes; the outer catch-all except (lines 319-321) turns any
escaped exception into None. -/
def save_image_from_base64 (env : SaveEnv) (data : B64Input) (filename : String) :
    Except PyErr (Option (String × List Nat)) :=
  pyTry
    (match data with
     | B64Input.str s =>
       match b64decode (normalizeB64 s) with
       | none => Except.ok none
       | some image_data => saveDecoded env filename image_data
     | B64Input.bytes image_data => saveDecoded env filename image_data)
    (fun _ => Except.ok none)

/-! ### Remote content generator (generate_content, src/main.py lines 185-244) -/

/-- One part of a Gemini message: plain text or inline image data carrying a
MIME type and a base64 payload (src/main.py lines 202-210). -/
inductive Part where
  | text (s : String)
  | inline_data (mime : String) (data : List Char)
deriving DecidableEq

/-- One entry of the contents list sent to the model and of the stored
conversation history: a role plus parts. -/
structure Message where
  role : String
  parts : List Part
deriving DecidableEq

/-- Outcomes of the two external calls made by the generator: the requests
fetch of the attachment URL (download_image, lines 235-244) and the Gemini
generate_content call (lines 221-227), producing an abstract response ρ. -/
structure GenEnv (ρ : Type) where
  fetch : String → Except PyErr (List Nat)
  modelCall : List Message → Except PyErr ρ

/-- Model of download_image (src/main.py lines 235-244): fetch the bytes,
and on a requests exception log and return None. -/
def download_image {ρ : Type} (env : GenEnv ρ) (url : String) : Option (List Nat) :=
  match env.fetch url with
  | Except.ok b => some b
  | Except.error _ => none

/-- The current user turn appended to the messages list (lines 196-218): with
fetched image bytes it carries text plus inline jpeg data, otherwise it is
text only. -/
def currentUserMessage (prompt : String) (img : Option (List Nat)) : Message :=
  match img with
  | some image_data =>
      { role := "user",
        parts := [Part.text prompt,
                  Part.inline_data "image/jpeg" (b64encode image_data)] }
  | none => { role := "user", parts := [Part.text prompt] }

/-- How generate_content turns the model call outcome into its return value:
a response becomes some response, a raised exception is caught by the
enclosing except (lines 231-233) and becomes None. -/
def genHandle {ρ : Type} (r : Except PyErr ρ) : Except PyErr (Option ρ) :=
  match r with
  | Except.ok v => Except.ok (some v)
  | Except.error _ => Except.ok none

/-- Model of generate_content (src/main.py lines 185-233): build the
messages list from the history plus the current turn (degrading to text only
when the attachment fetch failed), call the model, and catch any exception,
returning None. -/
def generate_content {ρ : Type} (env : GenEnv ρ) (prompt : String)
    (imageUrl : Option String) (history : List Message) : Except PyErr (Option ρ) :=
  pyTry
    (let img : Option (List Nat) :=
       match imageUrl with
       | some url => download_image env url
       | none => none
     let messages := history ++ [currentUserMessage prompt img]
     match env.modelCall messages with
     | Except.ok r => Except.ok (some r)
     | Except.error e => Except.error e)
    (fun _ => Except.ok none)

/-! ### Conversation store and session controller (src/main.py lines 42-52,
76-88, 324-465) -/

/-- Maximum turns of conversation history to keep (src/main.py line 49). -/
def HISTORY_LIMIT : Nat := 5

/-- Python negative-index slicing l[-n:]: the last n elements (all of l when
it is shorter than n). -/
def pySliceLast {α : Type} (n : Nat) (l : List α) : List α := l.drop (l.length - n)

/-- The user-facing reports of the store commands of src/main.py, one tag per
distinct ctx.send string of activate, deactivate and clear. -/
inductive Reply where
  | nowActive
  | alreadyActive
  | deactivated
  | notActive
  | historyCleared
  | nothingToClear
deriving DecidableEq

/-- The per-process mutable state of src/main.py: the active_channels set
(line 43) and the conversation_history dict (line 52), keyed by channel id,
absent key meaning no stored history. -/
structure BotState where
  activeChannels : Finset Nat
  conversationHistory : Nat → Option (List Message)

/-- The state at process start: no active channel, no stored history. -/
def initState : BotState :=
  { activeChannels := ∅, conversationHistory := fun _ => none }

/-- conversation_history.get(channel_id, []) as read by ask and on_message
(src/main.py lines 100 and 334). -/
def askHistory (st : BotState) (ch : Nat) : List Message :=
  (st.conversationHistory ch).getD []

/-- Model of the activate command (src/main.py lines 432-442). -/
def activate (st : BotState) (ch : Nat) : BotState × Reply :=
  if ch ∈ st.activeChannels then (st, Reply.alreadyActive)
  else ({ st with activeChannels := insert ch st.activeChannels }, Reply.nowActive)

/-- Model of the deactivate command (src/main.py lines 444-454). -/
def deactivate (st : BotState) (ch : Nat) : BotState × Reply :=
  if ch ∈ st.activeChannels then
    ({ st with activeChannels := st.activeChannels.erase ch }, Reply.deactivated)
  else (st, Reply.notActive)

/-- Model of the clear command (src/main.py lines 456-465): delete the
conversation_history entry of the channel when one exists. -/
def clear (st : BotState) (ch : Nat) : BotState × Reply :=
  if (st.conversationHistory ch).isSome then
    ({ st with conversationHistory :=
        fun c => if c = ch then none else st.conversationHistory c },
     Reply.historyCleared)
  else (st, Reply.nothingToClear)

/-- Append one turn to the stored history of a channel and truncate to the
most recent 2 * HISTORY_LIMIT turns, the appendTurn step of the store: ask
and on_message append the user turn and the model turn this way and store
history[-HISTORY_LIMIT*2:] (src/main.py lines 173-176 and 415-418). -/
def appendTurn (st : BotState) (ch : Nat) (t : Message) : BotState :=
  let history := askHistory st ch
  { st with conversationHistory :=
      fun c => if c = ch then some (pySliceLast (2 * HISTORY_LIMIT) (history ++ [t]))
               else st.conversationHistory c }

/-- The on_message dispatch test (src/main.py line 85): a message is handled
as an implicit prompt exactly when its channel is activated and its content
does not start with the command prefix ".". -/
def isImplicitPrompt (st : BotState) (ch : Nat) (content : String) : Bool :=
  decide (ch ∈ st.activeChannels) && !(content.startsWith ".")

/-! ### Reply formatting and cleanup (ask, src/main.py lines 396-426) -/

/-- Python range(start, stop, step) for a positive step, with explicit fuel
(stop - start steps always suffice). -/
def rangeStepAux : Nat → Nat → Nat → Nat → List Nat
  | 0, _, _, _ => []
  | fuel + 1, start, stop, step =>
    if start < stop then start :: rangeStepAux fuel (start + step) stop step else []

/-- Python range(start, stop, step) for a positive step. -/
def rangeStep (start stop step : Nat) : List Nat :=
  if step = 0 then [] else rangeStepAux (stop - start) start stop step

/-- The chunk list built at line 401: text[i:i+2000] for i in
range(0, len(text), 2000). -/
def pyChunks (text : List Char) : List (List Char) :=
  (rangeStep 0 text.length 2000).map (fun i => (text.drop i).take 2000)

/-- Observable side effects of the reply section of ask, over an abstract
file handle type F: an outbound message with text and attached files, a
history append, a temporary-file deletion. -/
inductive Event (F : Type) where
  | send (text : List Char) (files : List F)
  | appendHistory (role : String) (text : List Char)
  | deleteFile (file : F)
deriving DecidableEq

/-- The chunk send loop of ask (src/main.py lines 402-407): the first chunk
is sent with the image files when there are any, and the image_files variable
is then cleared; later chunks are sent bare.  Returns the events and the
final value of image_files. -/
def sendChunksLoop {F : Type} : List (List Char) → Nat → List F → List (Event F) × List F
  | [], _, files => ([], files)
  | c :: rest, i, files =>
    if i == 0 && !files.isEmpty then
      let r := sendChunksLoop rest (i + 1) []
      (Event.send c files :: r.1, r.2)
    else
      let r := sendChunksLoop rest (i + 1) files
      (Event.send c [] :: r.1, r.2)

/-- Caption sent when only images were generated (src/main.py line 411). -/
def capImages : List Char := "Generated image(s):".toList

/-- Notice sent when nothing was generated (src/main.py line 413). -/
def capNoContent : List Char := "No content was generated.".toList

/-- The send section of ask (src/main.py lines 396-413): chunked send for
long text, single send otherwise, caption or notice when there is no text.
Returns the events and the final value of the image_files variable. -/
def sendReplySection {F : Type} (text : List Char) (files : List F) :
    List (Event F) × List F :=
  if text.isEmpty = false then
    if 2000 < text.length then sendChunksLoop (pyChunks text) 0 files
    else ([Event.send text files], files)
  else if files.isEmpty = false then ([Event.send capImages files], files)
  else ([Event.send capNoContent []], files)

/-- The full reply phase of ask after generation succeeds (src/main.py lines
396-426), in program order: the send section, then the two history appends
(lines 415-417), then the cleanup loop over the current image_files list
(lines 420-426), one deletion per remaining entry. -/
def askReplyPhase {F : Type} (prompt text : List Char) (files : List F) :
    List (Event F) :=
  let r := sendReplySection text files
  r.1 ++ [Event.appendHistory "user" prompt, Event.appendHistory "model" text]
    ++ r.2.map Event.deleteFile

/-- A SaveEnv whose codec write happens to preserve its input and whose
fallback write succeeds. -/
def envIdCodec : SaveEnv := { pil := fun d => Except.ok d, rawWrite := Except.ok () }

/-- A SaveEnv whose PIL save raises and whose fallback write succeeds, so
every save goes through the verbatim fallback. -/
def envFallback : SaveEnv :=
  { pil := fun _ => Except.error { msg := "pil failed" }, rawWrite := Except.ok () }

/-- A SaveEnv whose codec write prepends a one-byte header to the decoded
bytes: a content-altering re-encoding, as a real codec is free to produce. -/
def envHeaderCodec : SaveEnv :=
  { pil := fun d => Except.ok (137 :: d), rawWrite := Except.ok () }

/-- A generator environment in which both external calls succeed. -/
def genvOk : GenEnv Nat :=
  { fetch := fun _ => Except.ok [], modelCall := fun _ => Except.ok 0 }

/-- A SaveEnv in which the PIL save and the fallback write both raise. -/
def envBroken : SaveEnv :=
  { pil := fun _ => Except.error { msg := "pil failed" },
    rawWrite := Except.error { msg := "io failed" } }

/-- A generator environment whose fetch always raises and whose model call
succeeds. -/
def genvNetDown : GenEnv Nat :=
  { fetch := fun _ => Except.error { msg := "net down" },
    modelCall := fun _ => Except.ok 7 }

/-! ### Base64 lemmas -/

theorem decodeChar_encodeChar : ∀ v : Nat, v < 64 → decodeChar (encodeChar v) = some v := by
  decide

theorem encodeChar_ne_pad : ∀ v : Nat, v < 64 → encodeChar v ≠ '=' := by
  decide

theorem encodeChar_ne_comma (v : Nat) : encodeChar v ≠ ',' := by
  by_cases h : v < 64
  · exact (show ∀ w : Nat, w < 64 → encodeChar w ≠ ',' by decide) v h
  · unfold encodeChar
    rw [List.getD_eq_default]
    · decide
    · have hlen : b64Alphabet.length = 64 := by decide
      omega

theorem b64encode_length_mod4 : ∀ bs : List Nat, (b64encode bs).length % 4 = 0
  | [] => by simp [b64encode]
  | [a] => by simp [b64encode]
  | [a, b] => by simp [b64encode]
  | a :: b :: c :: rest => by
    have ih := b64encode_length_mod4 rest
    simp only [b64encode, List.length_cons]
    omega

theorem comma_not_mem_b64encode : ∀ bs : List Nat, ',' ∉ b64encode bs
  | [] => by simp [b64encode]
  | [a] => by
    simp only [b64encode, List.mem_cons, List.not_mem_nil, or_false]
    push_neg
    exact ⟨fun h => encodeChar_ne_comma _ h.symm, fun h => encodeChar_ne_comma _ h.symm,
      by decide, by decide⟩
  | [a, b] => by
    simp only [b64encode, List.mem_cons, List.not_mem_nil, or_false]
    push_neg
    exact ⟨fun h => encodeChar_ne_comma _ h.symm, fun h => encodeChar_ne_comma _ h.symm,
      fun h => encodeChar_ne_comma _ h.symm, by decide⟩
  | a :: b :: c :: rest => by
    have ih := comma_not_mem_b64encode rest
    simp only [b64encode, List.mem_cons, not_or]
    exact ⟨fun h => encodeChar_ne_comma _ h.symm, fun h => encodeChar_ne_comma _ h.symm,
      fun h => encodeChar_ne_comma _ h.symm, fun h => encodeChar_ne_comma _ h.symm, ih⟩

theorem b64_roundtrip : ∀ bs : List Nat, (∀ x ∈ bs, x < 256) →
    b64decode (b64encode bs) = some bs
  | [], _ => rfl
  | [a], h => by
    have ha : a < 256 := h a (by simp)
    have h1 : a / 4 < 64 := by omega
    have h2 : a % 4 * 16 < 64 := by omega
    simp only [b64encode, b64decode, b64DecodeQuad,
      decodeChar_encodeChar _ h1, decodeChar_encodeChar _ h2, if_pos rfl]
    simp
    all_goals omega
  | [a, b], h => by
    have ha : a < 256 := h a (by simp)
    have hb : b < 256 := h b (by simp)
    have h1 : a / 4 < 64 := by omega
    have h2 : a % 4 * 16 + b / 16 < 64 := by omega
    have h3 : b % 16 * 4 < 64 := by omega
    simp only [b64encode, b64decode, b64DecodeQuad,
      decodeChar_encodeChar _ h1, decodeChar_encodeChar _ h2, decodeChar_encodeChar _ h3,
      if_neg (encodeChar_ne_pad _ h3), if_pos rfl]
    simp
    all_goals omega
  | a :: b :: c :: rest, h => by
    have ha : a < 256 := h a (by simp)
    have hb : b < 256 := h b (by simp)
    have hc : c < 256 := h c (by simp)
    have ih := b64_roundtrip rest (fun x hx => h x (by simp [hx]))
    have h1 : a / 4 < 64 := by omega
    have h2 : a % 4 * 16 + b / 16 < 64 := by omega
    have h3 : b % 16 * 4 + c / 64 < 64 := by omega
    have h4 : c % 64 < 64 := by omega
    simp only [b64encode, b64decode, b64DecodeQuad,
      decodeChar_encodeChar _ h1, decodeChar_encodeChar _ h2, decodeChar_encodeChar _ h3,
      decodeChar_encodeChar _ h4,
      if_neg (encodeChar_ne_pad _ h3), if_neg (encodeChar_ne_pad _ h4), ih]
    simp
    all_goals omega

/-! ### Normalisation lemmas -/

theorem normalizeB64_of_mod4 (s : List Char) (hmod : s.length % 4 = 0) (hc : ',' ∉ s) :
    normalizeB64 s = s := by
  unfold normalizeB64
  simp [hmod, hc]

theorem normalizeB64_repad (s : List Char) (k : Nat) (h1 : 1 ≤ k) (h3 : k ≤ 3)
    (hmod : s.length % 4 = 0) (hc : ',' ∉ s)
    (hsuf : s.drop (s.length - k) = List.replicate k '=') :
    normalizeB64 (s.take (s.length - k)) = s := by
  have hL : 4 ≤ s.length := by
    rcases Nat.eq_zero_or_pos s.length with h0 | hpos
    · exfalso
      have hnil : s = [] := List.length_eq_zero.mp h0
      rw [hnil] at hsuf
      simp at hsuf
      omega
    · omega
  have hlen_take : (s.take (s.length - k)).length = s.length - k := by
    simp [List.length_take]
  have hr : (s.length - k) % 4 = 4 - k := by omega
  have hrestore : s.take (s.length - k) ++ List.replicate k '=' = s := by
    rw [← hsuf, List.take_append_drop]
  have hc' : ',' ∉ s.take (s.length - k) ++ List.replicate (4 - (s.length - k) % 4) '=' := by
    rw [hr, show 4 - (4 - k) = k from by omega, hrestore]
    exact hc
  unfold normalizeB64
  simp only [hlen_take, hr]
  rw [if_neg (show ¬(4 - k = 0) from by omega)]
  rw [show 4 - (4 - k) = k from by omega, hrestore]
  rw [if_neg hc]

/-- C5 (claim): for every valid base64 string, removing 1, 2, or 3 trailing
padding characters and passing the result through the padding normalisation
of save_image_from_base64 yields the same decoded bytes as decoding the
correctly padded original.  Valid base64 strings are the encodings of byte
payloads; k trailing padding characters exist exactly when the encoding ends
in k copies of =. -/
theorem C5_padding_normalisation (bs : List Nat) (k : Nat)
    (hv : ∀ x ∈ bs, x < 256) (hk : k ≤ 3)
    (hsuf : (b64encode bs).drop ((b64encode bs).length - k) = List.replicate k '=') :
    b64decode (normalizeB64 (pyDropEnd k (b64encode bs))) = b64decode (b64encode bs)
      ∧ b64decode (b64encode bs) = some bs := by
  have hmod := b64encode_length_mod4 bs
  have hc := comma_not_mem_b64encode bs
  constructor
  · rcases Nat.eq_zero_or_pos k with h0 | hpos
    · subst h0
      unfold pyDropEnd
      rw [Nat.sub_zero, List.take_length, normalizeB64_of_mod4 _ hmod hc]
    · unfold pyDropEnd
      rw [normalizeB64_repad _ k hpos hk hmod hc hsuf]
  · exact b64_roundtrip bs hv

/-- Witness for C5 at the one-byte payload [77], whose encoding TQ== carries
two padding characters, removing both. -/
theorem C5_padding_normalisation_witness :
    (∀ x ∈ [77], x < 256) ∧ 2 ≤ 3
      ∧ (b64encode [77]).drop ((b64encode [77]).length - 2) = List.replicate 2 '='
      ∧ (b64decode (normalizeB64 (pyDropEnd 2 (b64encode [77])))
          = b64decode (b64encode [77])
        ∧ b64decode (b64encode [77]) = some [77]) :=
  ⟨by decide, by decide, by decide,
    C5_padding_normalisation [77] 2 (by decide) (by decide) (by decide)⟩

theorem save_pipeline_feeds_payload (payload : List Nat)
    (hv : ∀ x ∈ payload, x < 256) :
    b64decode (normalizeB64 (b64encode payload)) = some payload := by
  rw [normalizeB64_of_mod4 _ (b64encode_length_mod4 payload)
    (comma_not_mem_b64encode payload)]
  exact b64_roundtrip payload hv

theorem save_pipeline_pil_path (env : SaveEnv) (payload : List Nat) (filename : String)
    (hv : ∀ x ∈ payload, x < 256) (hlen : 100 ≤ payload.length)
    (written : List Nat) (hp : env.pil payload = Except.ok written) :
    save_image_from_base64 env (B64Input.str (b64encode payload)) filename
      = Except.ok (some (filename, written)) := by
  have hsd : saveDecoded env filename payload = Except.ok (some (filename, written)) := by
    unfold saveDecoded
    rw [if_neg (by omega)]
    simp [hp]
  simp [save_image_from_base64, save_pipeline_feeds_payload payload hv, hsd, pyTry]

theorem save_pipeline_fallback_path (env : SaveEnv) (payload : List Nat)
    (filename : String) (hv : ∀ x ∈ payload, x < 256) (hlen : 100 ≤ payload.length)
    (e : PyErr) (hp : env.pil payload = Except.error e)
    (hw : env.rawWrite = Except.ok ()) :
    save_image_from_base64 env (B64Input.str (b64encode payload)) filename
      = Except.ok (some (filename, payload)) := by
  have hsd : saveDecoded env filename payload = Except.ok (some (filename, payload)) := by
    unfold saveDecoded
    rw [if_neg (by omega)]
    simp [hp, hw]
  simp [save_image_from_base64, save_pipeline_feeds_payload payload hv, hsd, pyTry]

/-- C6 (amended): a byte payload of at least 100 bytes, encoded to base64 and
passed through the image decoder, reaches the save step byte-identical to the
original payload.  The saved file equals the payload whenever the verbatim
fallback write performs the save (the PIL open/save raised and the raw write
succeeds) or the codec write preserves its input; when the PIL save succeeds,
the saved content is exactly what the codec writes, not necessarily the
payload. -/
theorem C6_roundtrip_save_amended (env : SaveEnv) (payload : List Nat)
    (filename : String) (hv : ∀ x ∈ payload, x < 256)
    (hlen : 100 ≤ payload.length) :
    (∀ e, env.pil payload = Except.error e → env.rawWrite = Except.ok () →
      save_image_from_base64 env (B64Input.str (b64encode payload)) filename
        = Except.ok (some (filename, payload)))
    ∧ (env.pil payload = Except.ok payload →
      save_image_from_base64 env (B64Input.str (b64encode payload)) filename
        = Except.ok (some (filename, payload)))
    ∧ (∀ written, env.pil payload = Except.ok written →
      save_image_from_base64 env (B64Input.str (b64encode payload)) filename
        = Except.ok (some (filename, written))) :=
  ⟨fun e hp hw => save_pipeline_fallback_path env payload filename hv hlen e hp hw,
   fun hp => save_pipeline_pil_path env payload filename hv hlen payload hp,
   fun written hp => save_pipeline_pil_path env payload filename hv hlen written hp⟩

/-- C6 (counterexample to the original claim): under a codec whose write
prepends a header byte to the decoded bytes, the decoder saves content that
is not byte-identical to the 100-byte payload, so the program does not
guarantee byte-identity on the PIL path — only the raw fallback write stores
the decoded bytes verbatim. -/
theorem C6_reencoding_counterexample :
    save_image_from_base64 envHeaderCodec
        (B64Input.str (b64encode (List.replicate 100 0))) "img.png"
      = Except.ok (some ("img.png", 137 :: List.replicate 100 0))
    ∧ 137 :: List.replicate 100 0 ≠ List.replicate 100 0 :=
  ⟨save_pipeline_pil_path envHeaderCodec (List.replicate 100 0) "img.png"
      (by decide) (by decide) (137 :: List.replicate 100 0) rfl,
   by decide⟩

/-- Witness for the amended C6 at a 100-byte payload of zero bytes: the
fallback path under a raising PIL with a succeeding raw write, and the
preserving-codec path. -/
theorem C6_roundtrip_save_amended_witness :
    (∀ x ∈ List.replicate 100 0, x < 256) ∧ 100 ≤ (List.replicate 100 0).length
      ∧ envFallback.pil (List.replicate 100 0) = Except.error { msg := "pil failed" }
      ∧ envFallback.rawWrite = Except.ok ()
      ∧ save_image_from_base64 envFallback
          (B64Input.str (b64encode (List.replicate 100 0))) "img.png"
          = Except.ok (some ("img.png", List.replicate 100 0))
      ∧ envIdCodec.pil (List.replicate 100 0) = Except.ok (List.replicate 100 0)
      ∧ save_image_from_base64 envIdCodec
          (B64Input.str (b64encode (List.replicate 100 0))) "img.png"
          = Except.ok (some ("img.png", List.replicate 100 0)) :=
  ⟨by decide, by decide, rfl, rfl,
   (C6_roundtrip_save_amended envFallback (List.replicate 100 0) "img.png"
      (by decide) (by decide)).1 { msg := "pil failed" } rfl rfl,
   rfl,
   (C6_roundtrip_save_amended envIdCodec (List.replicate 100 0) "img.png"
      (by decide) (by decide)).2.1 rfl⟩

/-! ### Error containment (C7) and degradation (C8) -/

theorem pyTry_handler_ok {α : Type} (body : Except PyErr α) (dflt : α) :
    ∃ v, pyTry body (fun _ => Except.ok dflt) = Except.ok v := by
  cases body with
  | ok a => exact ⟨a, rfl⟩
  | error e => exact ⟨dflt, rfl⟩

/-- C7 (claim): the generator and the image decoder never raise past their
boundary.  generate_content always returns ok (a response or None, never an
escaped exception), and save_image_from_base64 always returns ok, returning
None on undecodable base64, on a payload under 100 bytes, and on I/O failure
of both the PIL save and the fallback write. -/
theorem C7_no_raise (ρ : Type) (genv : GenEnv ρ) (prompt : String)
    (imageUrl : Option String) (history : List Message) (senv : SaveEnv)
    (data : B64Input) (filename : String) (s : List Char) (d1 d2 : List Nat) :
    (∃ v, generate_content genv prompt imageUrl history = Except.ok v)
    ∧ (∃ w, save_image_from_base64 senv data filename = Except.ok w)
    ∧ (b64decode (normalizeB64 s) = none →
        save_image_from_base64 senv (B64Input.str s) filename = Except.ok none)
    ∧ (d1.length < 100 →
        save_image_from_base64 senv (B64Input.bytes d1) filename = Except.ok none)
    ∧ (∀ e1 e2, senv.pil d2 = Except.error e1 → senv.rawWrite = Except.error e2 →
        save_image_from_base64 senv (B64Input.bytes d2) filename = Except.ok none) := by
  refine ⟨?_, ?_, ?_, ?_, ?_⟩
  · exact pyTry_handler_ok _ _
  · exact pyTry_handler_ok _ _
  · intro h
    simp [save_image_from_base64, h, pyTry]
  · intro h
    simp [save_image_from_base64, saveDecoded, if_pos h, pyTry]
  · intro e1 e2 h1 h2
    by_cases hl : d2.length < 100
    · simp [save_image_from_base64, saveDecoded, if_pos hl, pyTry]
    · simp [save_image_from_base64, saveDecoded, if_neg hl, h1, h2, pyTry]

/-- Witness for C7: a succeeding generator call, and the three None-producing
decoder inputs — the undecodable payload "," (whose normalisation leaves the
three characters ===), the empty byte payload, and a 100-byte payload facing
a broken file system. -/
theorem C7_no_raise_witness :
    (∃ v, generate_content genvOk "hi" none [] = Except.ok v)
    ∧ (∃ w, save_image_from_base64 envBroken (B64Input.bytes []) "f.png" = Except.ok w)
    ∧ b64decode (normalizeB64 [',']) = none
    ∧ save_image_from_base64 envBroken (B64Input.str [',']) "f.png" = Except.ok none
    ∧ ([] : List Nat).length < 100
    ∧ save_image_from_base64 envBroken (B64Input.bytes []) "f.png" = Except.ok none
    ∧ envBroken.pil (List.replicate 100 0) = Except.error { msg := "pil failed" }
    ∧ envBroken.rawWrite = Except.error { msg := "io failed" }
    ∧ save_image_from_base64 envBroken (B64Input.bytes (List.replicate 100 0)) "f.png"
        = Except.ok none := by
  have H := C7_no_raise Nat genvOk "hi" none [] envBroken (B64Input.bytes []) "f.png"
    [','] [] (List.replicate 100 0)
  exact ⟨H.1, H.2.1, by decide, H.2.2.1 (by decide), by decide, H.2.2.2.1 (by decide),
    rfl, rfl, H.2.2.2.2 { msg := "pil failed" } { msg := "io failed" } rfl rfl⟩

/-- C8 (claim): when an attachment URL is supplied and the fetch of its bytes
fails, generate_content degrades to a text-only current turn, still invokes
the remote model with the prompt and the history, and the outcome of the turn
is decided by the model call alone; the call behaves exactly as a call with
no attachment. -/
theorem C8_degrade_to_text (ρ : Type) (genv : GenEnv ρ) (prompt url : String)
    (history : List Message) (e : PyErr) (h : genv.fetch url = Except.error e) :
    generate_content genv prompt (some url) history
      = genHandle (genv.modelCall (history ++ [currentUserMessage prompt none]))
    ∧ generate_content genv prompt (some url) history
      = generate_content genv prompt none history := by
  have hd : download_image genv url = none := by
    unfold download_image
    rw [h]
  constructor
  · cases hm : genv.modelCall (history ++ [currentUserMessage prompt none]) with
    | ok r => simp [generate_content, genHandle, pyTry, hd, hm]
    | error e2 => simp [generate_content, genHandle, pyTry, hd, hm]
  · simp [generate_content, hd]

/-- Witness for C8 under a failing fetch. -/
theorem C8_degrade_to_text_witness :
    genvNetDown.fetch "u" = Except.error { msg := "net down" }
    ∧ (generate_content genvNetDown "p" (some "u") []
        = genHandle (genvNetDown.modelCall ([] ++ [currentUserMessage "p" none]))
      ∧ generate_content genvNetDown "p" (some "u") []
        = generate_content genvNetDown "p" none []) :=
  ⟨rfl, C8_degrade_to_text Nat genvNetDown "p" "u" [] { msg := "net down" } rfl⟩

/-! ### Conversation store lemmas (C1, C3, C4, C10) -/

theorem drop_length_add_append {α : Type} (w t : List α) (m : Nat) :
    (w ++ t).drop (w.length + m) = t.drop m := by
  induction w with
  | nil => simp
  | cons a w ih => simp [Nat.succ_add, ih]

theorem pySliceLast_of_le {α : Type} (n : Nat) (l : List α) (h : l.length ≤ n) :
    pySliceLast n l = l := by
  unfold pySliceLast
  rw [show l.length - n = 0 from by omega, List.drop_zero]

theorem pySliceLast_length_le {α : Type} (n : Nat) (l : List α) :
    (pySliceLast n l).length ≤ n := by
  unfold pySliceLast
  rw [List.length_drop]
  omega

theorem pySliceLast_suffix {α : Type} (n : Nat) (l : List α) :
    List.IsSuffix (pySliceLast n l) l :=
  List.drop_suffix _ _

theorem pySliceLast_of_suffix {α : Type} (n : Nat) (l' l : List α)
    (hs : List.IsSuffix l' l) (hn : n ≤ l'.length) :
    pySliceLast n l' = pySliceLast n l := by
  obtain ⟨w, hw⟩ := hs
  subst hw
  unfold pySliceLast
  rw [List.length_append,
    show w.length + l'.length - n = w.length + (l'.length - n) from by omega,
    drop_length_add_append]

theorem pySliceLast_append_left {α : Type} (n : Nat) (xs ys : List α) :
    pySliceLast n (pySliceLast n xs ++ ys) = pySliceLast n (xs ++ ys) := by
  by_cases h : xs.length ≤ n
  · rw [pySliceLast_of_le n xs h]
  · have hsuf : List.IsSuffix (pySliceLast n xs ++ ys) (xs ++ ys) := by
      obtain ⟨w, hw⟩ := pySliceLast_suffix n xs
      exact ⟨w, by rw [← List.append_assoc, hw]⟩
    have hlen : n ≤ (pySliceLast n xs ++ ys).length := by
      rw [List.length_append]
      unfold pySliceLast
      rw [List.length_drop]
      omega
    exact pySliceLast_of_suffix n _ _ hsuf hlen

theorem foldl_pySliceLast (n : Nat) : ∀ (ts h0 : List Message), h0.length ≤ n →
    ts.foldl (fun h t => pySliceLast n (h ++ [t])) h0 = pySliceLast n (h0 ++ ts)
  | [], h0, hh => by
    simp [pySliceLast_of_le n h0 hh]
  | t :: ts, h0, hh => by
    simp only [List.foldl_cons]
    rw [foldl_pySliceLast n ts (pySliceLast n (h0 ++ [t])) (pySliceLast_length_le n _)]
    rw [pySliceLast_append_left]
    simp

theorem askHistory_appendTurn (st : BotState) (ch : Nat) (t : Message) :
    askHistory (appendTurn st ch t) ch
      = pySliceLast (2 * HISTORY_LIMIT) (askHistory st ch ++ [t]) := by
  simp [askHistory, appendTurn]

theorem askHistory_foldl_appendTurn (ch : Nat) : ∀ (ts : List Message) (st : BotState),
    askHistory (ts.foldl (fun s t => appendTurn s ch t) st) ch
      = ts.foldl (fun h t => pySliceLast (2 * HISTORY_LIMIT) (h ++ [t])) (askHistory st ch)
  | [], st => rfl
  | t :: ts, st => by
    simp only [List.foldl_cons]
    rw [askHistory_foldl_appendTurn ch ts (appendTurn st ch t), askHistory_appendTurn]

/-- C1 (claim): for every channel and every sequence of appended turns, the
stored conversation history never exceeds 2 * HISTORY_LIMIT entries (10),
and when the bound is reached the oldest turns are dropped first: the stored
history is exactly the most recent 2 * HISTORY_LIMIT appended turns, in their
original order (a suffix of the appended sequence). -/
theorem C1_history_fifo (ch : Nat) (ts : List Message) :
    (askHistory (ts.foldl (fun st t => appendTurn st ch t) initState) ch).length
        ≤ 2 * HISTORY_LIMIT
    ∧ askHistory (ts.foldl (fun st t => appendTurn st ch t) initState) ch
        = pySliceLast (2 * HISTORY_LIMIT) ts
    ∧ List.IsSuffix
        (askHistory (ts.foldl (fun st t => appendTurn st ch t) initState) ch) ts := by
  have h0 : askHistory initState ch = [] := rfl
  have key : askHistory (ts.foldl (fun st t => appendTurn st ch t) initState) ch
      = pySliceLast (2 * HISTORY_LIMIT) ts := by
    rw [askHistory_foldl_appendTurn, h0,
      foldl_pySliceLast (2 * HISTORY_LIMIT) ts [] (by simp)]
    simp
  refine ⟨?_, key, ?_⟩
  · rw [key]
    exact pySliceLast_length_le _ _
  · rw [key]
    exact pySliceLast_suffix _ _

/-- C3 (claim): activate in a fresh (inactive) channel reports now-active and
marks the channel active; a second activate on the same channel reports
already-active and leaves the whole state unchanged. -/
theorem C3_activate_idempotent (st : BotState) (ch : Nat)
    (h : ch ∉ st.activeChannels) :
    (activate st ch).2 = Reply.nowActive
    ∧ ch ∈ (activate st ch).1.activeChannels
    ∧ activate (activate st ch).1 ch = ((activate st ch).1, Reply.alreadyActive) := by
  unfold activate
  rw [if_neg h]
  refine ⟨rfl, Finset.mem_insert_self ch _, ?_⟩
  rw [if_pos (Finset.mem_insert_self ch _)]

/-- Witness for C3 at channel 0 in the fresh process state. -/
theorem C3_activate_idempotent_witness :
    (0 ∉ initState.activeChannels)
    ∧ ((activate initState 0).2 = Reply.nowActive
      ∧ 0 ∈ (activate initState 0).1.activeChannels
      ∧ activate (activate initState 0).1 0
          = ((activate initState 0).1, Reply.alreadyActive)) :=
  ⟨by decide, C3_activate_idempotent initState 0 (by decide)⟩

/-- C4 (claim): deactivate after activate returns the channel to the inactive
state, and a subsequent plain (non-command) message in that channel is not
treated as an implicit prompt by the on_message dispatch. -/
theorem C4_deactivate_after_activate (st : BotState) (ch : Nat) (content : String) :
    ch ∉ ((deactivate (activate st ch).1 ch).1).activeChannels
    ∧ isImplicitPrompt (deactivate (activate st ch).1 ch).1 ch content = false := by
  have h1 : ch ∈ (activate st ch).1.activeChannels := by
    unfold activate
    by_cases h : ch ∈ st.activeChannels
    · rw [if_pos h]
      exact h
    · rw [if_neg h]
      exact Finset.mem_insert_self ch _
  have h2 : ch ∉ ((deactivate (activate st ch).1 ch).1).activeChannels := by
    unfold deactivate
    rw [if_pos h1]
    exact Finset.not_mem_erase ch _
  refine ⟨h2, ?_⟩
  unfold isImplicitPrompt
  simp [h2]

/-- C10 (claim): in the src/main.py revision, deactivate removes the channel
only from the active set and leaves the stored conversation history fully
unchanged (so history recorded before deactivation remains available to a
later ask); activate also leaves the history unchanged; only clear removes
stored turns, deleting exactly the entry of the cleared channel. -/
theorem C10_deactivate_frame (st : BotState) (ch ch' : Nat) :
    (deactivate st ch).1.conversationHistory = st.conversationHistory
    ∧ (deactivate st ch).1.activeChannels = st.activeChannels.erase ch
    ∧ askHistory (deactivate st ch).1 ch = askHistory st ch
    ∧ (activate st ch).1.conversationHistory = st.conversationHistory
    ∧ (clear st ch).1.conversationHistory ch'
        = (if ch' = ch then none else st.conversationHistory ch') := by
  have hist : (deactivate st ch).1.conversationHistory = st.conversationHistory := by
    unfold deactivate
    by_cases h : ch ∈ st.activeChannels
    · rw [if_pos h]
    · rw [if_neg h]
  refine ⟨hist, ?_, ?_, ?_, ?_⟩
  · unfold deactivate
    by_cases h : ch ∈ st.activeChannels
    · rw [if_pos h]
    · rw [if_neg h]
      exact (Finset.erase_eq_of_not_mem h).symm
  · unfold askHistory
    rw [hist]
  · unfold activate
    by_cases h : ch ∈ st.activeChannels
    · rw [if_pos h]
    · rw [if_neg h]
  · unfold clear
    by_cases h : (st.conversationHistory ch).isSome
    · rw [if_pos h]
    · rw [if_neg h]
      by_cases hc : ch' = ch
      · subst hc
        simp only [if_pos rfl]
        exact Option.not_isSome_iff_eq_none.mp h
      · rw [if_neg hc]

/-! ### Reply formatting (C2) and cleanup ordering (C9) -/

/-- C2 (claim): a generated text reply of exactly 4001 characters is split by
the reply-formatting step into exactly three consecutive chunks, each of
length at most 2000, whose concatenation in send order is the original text,
and the generated image attachments travel with the first chunk only (the
later sends carry no files). -/
theorem C2_chunked_reply {F : Type} (text : List Char) (files : List F)
    (h : text.length = 4001) :
    (sendReplySection text files).1 =
      [Event.send (text.take 2000) files,
       Event.send ((text.drop 2000).take 2000) [],
       Event.send ((text.drop 4000).take 2000) []]
    ∧ text.take 2000 ++ ((text.drop 2000).take 2000 ++ (text.drop 4000).take 2000) = text
    ∧ (text.take 2000).length ≤ 2000
    ∧ ((text.drop 2000).take 2000).length ≤ 2000
    ∧ ((text.drop 4000).take 2000).length ≤ 2000 := by
  have hne : text.isEmpty = false := by
    cases text with
    | nil => simp at h
    | cons a l => rfl
  have hchunks : pyChunks text =
      [text.take 2000, (text.drop 2000).take 2000, (text.drop 4000).take 2000] := by
    unfold pyChunks
    rw [h, show rangeStep 0 4001 2000 = [0, 2000, 4000] from by decide]
    simp
  have hjoin : text.take 2000 ++ ((text.drop 2000).take 2000 ++ (text.drop 4000).take 2000)
      = text := by
    have h3 : (text.drop 4000).take 2000 = text.drop 4000 := by
      apply List.take_of_length_le
      rw [List.length_drop, h]
      omega
    rw [h3, show (4000 : Nat) = 2000 + 2000 from rfl, ← List.drop_drop,
      List.take_append_drop, List.take_append_drop]
  refine ⟨?_, hjoin, ?_, ?_, ?_⟩
  · unfold sendReplySection
    rw [hne, if_pos rfl, if_pos (by omega), hchunks]
    unfold sendChunksLoop
    cases hf : files.isEmpty with
    | true =>
      have : files = [] := List.isEmpty_iff.mp hf
      subst this
      simp [sendChunksLoop]
    | false =>
      simp [sendChunksLoop, hf]
  · simp [List.length_take]
  · simp [List.length_take]
  · simp [List.length_take]

/-- Witness for C2 at a 4001-character text with one attachment. -/
theorem C2_chunked_reply_witness :
    (List.replicate 4001 'a').length = 4001
    ∧ ((sendReplySection (List.replicate 4001 'a') [3]).1 =
        [Event.send ((List.replicate 4001 'a').take 2000) [3],
         Event.send (((List.replicate 4001 'a').drop 2000).take 2000) [],
         Event.send (((List.replicate 4001 'a').drop 4000).take 2000) []]
      ∧ (List.replicate 4001 'a').take 2000
          ++ (((List.replicate 4001 'a').drop 2000).take 2000
            ++ ((List.replicate 4001 'a').drop 4000).take 2000)
          = List.replicate 4001 'a'
      ∧ ((List.replicate 4001 'a').take 2000).length ≤ 2000
      ∧ (((List.replicate 4001 'a').drop 2000).take 2000).length ≤ 2000
      ∧ (((List.replicate 4001 'a').drop 4000).take 2000).length ≤ 2000) :=
  ⟨List.length_replicate 4001 'a',
    C2_chunked_reply (List.replicate 4001 'a') ([3] : List Nat)
      (List.length_replicate 4001 'a')⟩

theorem sendChunksLoop_pair {F : Type} (c1 c2 : List Char) (f : List F)
    (hf : f.isEmpty = false) :
    sendChunksLoop [c1, c2] 0 f = ([Event.send c1 f, Event.send c2 []], ([] : List F)) := by
  simp [sendChunksLoop, hf]

/-- C9 (code bug): on the failing input of a 2001-character generated text
with one persisted image file, the reply phase of ask sends the file with the
first chunk, appends the two history turns, and then deletes nothing: the
cleanup loop at src/main.py lines 421-426 iterates over the image_files list
that the chunked send at line 405 reset to empty, so no deleteFile event ever
follows the sends, contradicting the claim that every persisted image file is
deleted after the reply is sent. -/
theorem C9_cleanup_skipped_on_chunked_reply :
    askReplyPhase ([] : List Char) (List.replicate 2001 'a') ([3] : List Nat) =
      [Event.send (List.replicate 2000 'a') [3],
       Event.send ['a'] [],
       Event.appendHistory "user" [],
       Event.appendHistory "model" (List.replicate 2001 'a')] := by
  have hchunks : pyChunks (List.replicate 2001 'a') = [List.replicate 2000 'a', ['a']] := by
    unfold pyChunks
    rw [List.length_replicate, show rangeStep 0 2001 2000 = [0, 2000] from by decide]
    simp only [List.map_cons, List.map_nil, List.drop_zero, List.take_replicate,
      List.drop_replicate]
    norm_num [List.replicate_one]
  have hne : (List.replicate 2001 'a').isEmpty = false := by
    rw [show (2001 : Nat) = 2000 + 1 from rfl, List.replicate_succ]
    rfl
  have hlong : 2000 < (List.replicate 2001 'a').length := by
    rw [List.length_replicate]
    omega
  have hloop := sendChunksLoop_pair (List.replicate 2000 'a') ['a'] ([3] : List Nat) rfl
  unfold askReplyPhase sendReplySection
  rw [hne]
  rw [if_pos rfl, if_pos hlong, hchunks, hloop]
  rfl

end Jarvis
